import Mathlib

/-!
Shallow embedding of the libjade repository scripts:
  - build_libjade.py (build driver),
  - python/libjade.py (SIP binding generation driver),
  - test/jade-test.py (demonstration GUI wiring).
Each definition is translated from the corresponding source construct; the
effectful scripts become trace-producing functions over an explicit
environment (exit codes of external calls, filesystem facts, separator of
the host platform).
-/

namespace Jade

/-- Modelled from the spec: the mode constants of the absent native class
DrawingWidget (DefaultMode, ScrollMode, ZoomMode, PlaceMode), referenced by
jade-test.py but defined only in the native library. Represented as a
four-constructor enumeration with distinct values. -/
inductive Mode
| DefaultMode
| ScrollMode
| ZoomMode
| PlaceMode
deriving DecidableEq

/-- The drawing item classes instantiated by DiagramWindow.setModeFromAction.
The pathItem constructor records the rectangle passed to setRect and setPath
for the Place Path branch. -/
inductive ItemKind
| arcItem
| curveItem
| ellipseItem
| lineItem
| polygonItem
| polylineItem
| rectItem
| textItem
| pathItem (x y w h : Int)
| textRectItem
| textEllipseItem
| textPolygonItem
deriving DecidableEq

/-- The mode-setting calls DiagramWindow.setModeFromAction can issue on the
diagram widget. -/
inductive DiagramCmd
| setScrollMode
| setZoomMode
| setPlaceMode (item : ItemKind)
| setDefaultMode
deriving DecidableEq

/-- The DrawingPathItem built in the Place Path branch of setModeFromAction:
setRect(-200, -100, 400, 200) and setPath over the same rectangle. -/
def placePathItem : ItemKind := ItemKind.pathItem (-200) (-100) 400 200

/-- DiagramWindow.setModeFromAction (jade-test.py lines 179-214): the
if/elif chain dispatching on the text of the triggered action. -/
def setModeFromAction (text : String) : DiagramCmd :=
  if text = "Scroll Mode" then DiagramCmd.setScrollMode
  else if text = "Zoom Mode" then DiagramCmd.setZoomMode
  else if text = "Place Arc" then DiagramCmd.setPlaceMode ItemKind.arcItem
  else if text = "Place Curve" then DiagramCmd.setPlaceMode ItemKind.curveItem
  else if text = "Place Ellipse" then DiagramCmd.setPlaceMode ItemKind.ellipseItem
  else if text = "Place Line" then DiagramCmd.setPlaceMode ItemKind.lineItem
  else if text = "Place Polygon" then DiagramCmd.setPlaceMode ItemKind.polygonItem
  else if text = "Place Polyline" then DiagramCmd.setPlaceMode ItemKind.polylineItem
  else if text = "Place Rect" then DiagramCmd.setPlaceMode ItemKind.rectItem
  else if text = "Place Text" then DiagramCmd.setPlaceMode ItemKind.textItem
  else if text = "Place Path" then DiagramCmd.setPlaceMode placePathItem
  else if text = "Place Text Rect" then DiagramCmd.setPlaceMode ItemKind.textRectItem
  else if text = "Place Text Ellipse" then DiagramCmd.setPlaceMode ItemKind.textEllipseItem
  else if text = "Place Text Polygon" then DiagramCmd.setPlaceMode ItemKind.textPolygonItem
  else DiagramCmd.setDefaultMode

/-- The fourteen action labels that setModeFromAction tests, in the order of
the source if/elif chain. -/
def modeActionLabels : List String :=
  ["Scroll Mode", "Zoom Mode", "Place Arc", "Place Curve", "Place Ellipse",
   "Place Line", "Place Polygon", "Place Polyline", "Place Rect", "Place Text",
   "Place Path", "Place Text Rect", "Place Text Ellipse", "Place Text Polygon"]

/-- Atomic steps performed by the two scripts: external process invocations
(subprocess.call and os.system), directory and file removal or creation, and
path existence checks. -/
inductive FsStep
| call (cmd : String)
| systemCmd (cmd : String)
| rmdir (p : String)
| removeFile (p : String)
| rmtree (p : String)
| mkdir (p : String)
| existsCheck (p : String)
deriving DecidableEq

/-- build_libjade.py, module body: the trace of steps the script performs.
The environment exitCode gives each external command an exit status; the
source binds no name to the subprocess.call results, which the lets with
unused names mirror. -/
def buildScriptRun (exitCode : String → Int) (clean : Bool) : List FsStep :=
  let _rQmake := exitCode "qmake"
  let _rNmakeRelease := exitCode "nmake release"
  [FsStep.call "qmake", FsStep.call "nmake release"] ++
  (if clean then
    let _rNmakeClean := exitCode "nmake clean"
    [FsStep.call "nmake clean",
     FsStep.rmdir "debug", FsStep.rmdir "release",
     FsStep.removeFile "Makefile.Debug", FsStep.removeFile "Makefile.Release",
     FsStep.removeFile "Makefile"]
  else [])

/-- python/libjade.py: master_input_file. -/
def master_input_file : String := "Drawing.sip"

/-- python/libjade.py: build_file. -/
def build_file : String := "jade.sbf"

/-- python/libjade.py: output_dir. -/
def output_dir : String := "codegen"

/-- python/libjade.py: sip_bin (a raw Windows path literal). -/
def sip_bin : String := "C:\\Development\\Python34\\sip.exe"

/-- python/libjade.py: sip_includedir_pyqt (a raw Windows path literal). -/
def sip_includedir_pyqt : String :=
  "C:\\Development\\Python34\\Lib\\site-packages\\PyQt5\\sip\\PyQt5"

/-- python/libjade.py: sip_flags_pyqt, one string holding flag and value. -/
def sip_flags_pyqt : String := "-t WS_WIN"

/-- The os.path.join of two path segments: the separator of the host
platform is an explicit parameter. Mirrors the join of a nonempty first
segment with a relative second segment. -/
def os_path_join (sep : Char) (a b : String) : String :=
  if a = "" then b
  else if a.data.getLast? = some sep then a ++ b
  else a ++ sep.toString ++ b

/-- The single command string passed to os.system in python/libjade.py:
the space-join of the SIP binary, its flags and the master input file. -/
def sipCommand (sep : Char) : String :=
  " ".intercalate
    [sip_bin, "-c", output_dir, "-b", os_path_join sep output_dir build_file,
     "-I", sip_includedir_pyqt, sip_flags_pyqt, master_input_file]

/-- python/libjade.py, module body: the trace of steps the script performs,
given whether the codegen directory exists when os.path.exists is consulted.
The commented-out PyQt4 block of the source contributes no step. -/
def libjadeRun (sep : Char) (codegenExists : Bool) : List FsStep :=
  FsStep.existsCheck output_dir ::
  ((if codegenExists then [FsStep.rmtree output_dir] else []) ++
   [FsStep.mkdir output_dir, FsStep.systemCmd (sipCommand sep)])

/-- Recognizes the path existence checks in a script trace. -/
def isExistsCheck : FsStep → Bool
| FsStep.existsCheck _ => true
| _ => false

/-- Recognizes the external process invocations in a script trace. -/
def isExternalInvocation : FsStep → Bool
| FsStep.call _ => true
| FsStep.systemCmd _ => true
| _ => false

/-- Holds when a script trace contains no path existence check at all. -/
def checksNoExistence (trace : List FsStep) : Bool :=
  trace.all (fun s => ! isExistsCheck s)

/-- The arguments of one addAction call of jade-test.py: the text, the name
of the connected slot, and the iconPath and shortcut parameters after the
Python defaults are filled in. -/
structure ActionSpec where
  text : String
  slot : String
  iconPath : String
  shortcut : String
deriving DecidableEq

/-- The observable state of a QAction after the helper methods of
jade-test.py configured it: icon and shortcut are present exactly when a
nonempty argument was supplied, connectedSlot records the slot wired to the
triggered signal of this action, if any. -/
structure QActionModel where
  text : String
  icon : Option String
  shortcut : Option String
  connectedSlot : Option String
  checkable : Bool
deriving DecidableEq

/-- DiagramWidget.addAction and DiagramWindow.addAction (jade-test.py lines
126-136 and 342-352, identical bodies): build a QAction, connect its
triggered signal to the slot, and set icon and shortcut exactly when the
corresponding argument is nonempty. -/
def addAction (s : ActionSpec) : QActionModel :=
  { text := s.text,
    icon := if s.iconPath = "" then none else some s.iconPath,
    shortcut := if s.shortcut = "" then none else some s.shortcut,
    connectedSlot := some s.slot,
    checkable := false }

/-- DiagramWindow.addModeAction (jade-test.py lines 354-364): build a
QAction without connecting its triggered signal (the slot parameter is
never read), set icon and shortcut exactly when nonempty, make it checkable
and put it into the mode action group. -/
def addModeAction (text slot iconPath shortcut : String) : QActionModel :=
  { text := text,
    icon := if iconPath = "" then none else some iconPath,
    shortcut := if shortcut = "" then none else some shortcut,
    connectedSlot := none,
    checkable := true }

/-- DiagramWidget.addActions (jade-test.py lines 43-70): the 22 addAction
calls in source order, with the Python defaults filled in where an argument
was omitted. -/
def diagramWidgetActionSpecs : List ActionSpec :=
  [⟨"Undo", "undo", "", "Ctrl+Z"⟩,
   ⟨"Redo", "redo", "", "Ctrl+Shift+Z"⟩,
   ⟨"Cut", "cut", "", "Ctrl+X"⟩,
   ⟨"Copy", "copy", "", "Ctrl+C"⟩,
   ⟨"Paste", "paste", "", "Ctrl+V"⟩,
   ⟨"Delete", "deleteSelection", "", "Delete"⟩,
   ⟨"Select All", "selectAll", "", "Ctrl+A"⟩,
   ⟨"Select None", "selectNone", "", "Ctrl+Shift+A"⟩,
   ⟨"Rotate", "rotateSelection", "", "R"⟩,
   ⟨"Rotate Back", "rotateBackSelection", "", "Shift+R"⟩,
   ⟨"Flip", "flipSelection", "", "F"⟩,
   ⟨"Bring Forward", "bringForward", "", ""⟩,
   ⟨"Send Backward", "sendBackward", "", ""⟩,
   ⟨"Bring to Front", "bringToFront", "", ""⟩,
   ⟨"Send to Back", "sendToBack", "", ""⟩,
   ⟨"Insert Point", "insertItemPoint", "", ""⟩,
   ⟨"Remove Point", "removeItemPoint", "", ""⟩,
   ⟨"Group", "group", "", "Ctrl+G"⟩,
   ⟨"Ungroup", "ungroup", "", "Ctrl+Shift+G"⟩,
   ⟨"Zoom In", "zoomIn", "", "."⟩,
   ⟨"Zoom Out", "zoomOut", "", ","⟩,
   ⟨"Zoom Fit", "zoomFit", "", "/"⟩]

/-- The action list of the DiagramWidget instance, in call order. -/
def diagramWidgetActions : List QActionModel :=
  diagramWidgetActionSpecs.map addAction

/-- DiagramWindow.createActions, addAction part (jade-test.py lines
257-258): the two window actions, with defaults filled in. -/
def windowActionSpecs : List ActionSpec :=
  [⟨"About Qt...", "qApp.aboutQt", "", ""⟩,
   ⟨"Exit", "close", "", ""⟩]

/-- The action list of the DiagramWindow instance, in call order. -/
def windowActions : List QActionModel :=
  windowActionSpecs.map addAction

/-- DiagramWindow.createActions, addModeAction part (jade-test.py lines
263-277): the positional arguments of the 15 addModeAction calls, bound in
order to the text, slot and iconPath parameters. -/
def modeActionCalls : List (String × String × String) :=
  [("Select Mode", "", "Escape"),
   ("Scroll Mode", "", ""),
   ("Zoom Mode", "", ""),
   ("Place Arc", "", ""),
   ("Place Curve", "", ""),
   ("Place Ellipse", "", ""),
   ("Place Line", "", ""),
   ("Place Path", "", ""),
   ("Place Polygon", "", ""),
   ("Place Polyline", "", ""),
   ("Place Rect", "", ""),
   ("Place Text", "", ""),
   ("Place Text Rect", "", ""),
   ("Place Text Ellipse", "", ""),
   ("Place Text Polygon", "", "")]

/-- The action list of the mode action group, in call order; the shortcut
parameter keeps its Python default of the empty string in every call. -/
def modeActions : List QActionModel :=
  modeActionCalls.map (fun c => addModeAction c.1 c.2.1 c.2.2 "")

/-- jade-test.py line 261: the slot connected to the triggered signal of
the mode action group. -/
def modeActionGroupTriggeredSlot : String := "setModeFromAction"

namespace DiagramWidget

/-- jade-test.py lines 10-14: the action index constants of DiagramWidget,
a tuple unpacking of range(23). -/
def UndoAction : Nat := 0

def RedoAction : Nat := 1

def CutAction : Nat := 2

def CopyAction : Nat := 3

def PasteAction : Nat := 4

def DeleteAction : Nat := 5

def SelectAllAction : Nat := 6

def SelectNoneAction : Nat := 7

def RotateAction : Nat := 8

def RotateBackAction : Nat := 9

def FlipAction : Nat := 10

def BringForwardAction : Nat := 11

def SendBackwardAction : Nat := 12

def BringToFrontAction : Nat := 13

def SendToBackAction : Nat := 14

def InsertPointAction : Nat := 15

def RemovePointAction : Nat := 16

def GroupAction : Nat := 17

def UngroupAction : Nat := 18

def ZoomInAction : Nat := 19

def ZoomOutAction : Nat := 20

def ZoomFitAction : Nat := 21

def NumberOfActions : Nat := 22

end DiagramWidget

namespace DiagramWindow

/-- jade-test.py line 141: the window action index constants, a tuple
unpacking of range(3). -/
def AboutQtAction : Nat := 0

def ExitAction : Nat := 1

def NumberOfActions : Nat := 2

/-- jade-test.py lines 142-146: the mode action index constants, a tuple
unpacking of range(16). -/
def DefaultModeAction : Nat := 0

def ScrollModeAction : Nat := 1

def ZoomModeAction : Nat := 2

def PlaceArcAction : Nat := 3

def PlaceCurveAction : Nat := 4

def PlaceEllipseAction : Nat := 5

def PlaceLineAction : Nat := 6

def PlacePathAction : Nat := 7

def PlacePolygonAction : Nat := 8

def PlacePolylineAction : Nat := 9

def PlaceRectAction : Nat := 10

def PlaceTextAction : Nat := 11

def PlaceTextRectAction : Nat := 12

def PlaceTextEllipseAction : Nat := 13

def PlaceTextPolygonAction : Nat := 14

def NumberOfModeActions : Nat := 15

end DiagramWindow

/-- DiagramWidget.createContextMenus (jade-test.py lines 72-124): every
index used to access the widget action list, across the four context menus,
in source order. -/
def createContextMenusIndexes : List Nat :=
  [DiagramWidget.RotateAction, DiagramWidget.RotateBackAction,
   DiagramWidget.FlipAction, DiagramWidget.DeleteAction,
   DiagramWidget.GroupAction, DiagramWidget.UngroupAction,
   DiagramWidget.CutAction, DiagramWidget.CopyAction, DiagramWidget.PasteAction,
   DiagramWidget.InsertPointAction, DiagramWidget.RemovePointAction,
   DiagramWidget.RotateAction, DiagramWidget.RotateBackAction,
   DiagramWidget.FlipAction, DiagramWidget.DeleteAction,
   DiagramWidget.CutAction, DiagramWidget.CopyAction, DiagramWidget.PasteAction,
   DiagramWidget.RotateAction, DiagramWidget.RotateBackAction,
   DiagramWidget.FlipAction, DiagramWidget.DeleteAction,
   DiagramWidget.GroupAction, DiagramWidget.UngroupAction,
   DiagramWidget.CutAction, DiagramWidget.CopyAction, DiagramWidget.PasteAction,
   DiagramWidget.UndoAction, DiagramWidget.RedoAction,
   DiagramWidget.CutAction, DiagramWidget.CopyAction, DiagramWidget.PasteAction,
   DiagramWidget.ZoomInAction, DiagramWidget.ZoomOutAction,
   DiagramWidget.ZoomFitAction]

/-- DiagramWindow.createMenus (jade-test.py lines 286-289): the indexes
used on the window action list. -/
def createMenusWindowIndexes : List Nat :=
  [DiagramWindow.AboutQtAction, DiagramWindow.ExitAction]

/-- DiagramWindow.createMenus (jade-test.py lines 291-340): the indexes
used on the diagram widget action list, in source order. -/
def createMenusDiagramIndexes : List Nat :=
  [DiagramWidget.UndoAction, DiagramWidget.RedoAction,
   DiagramWidget.CutAction, DiagramWidget.CopyAction, DiagramWidget.PasteAction,
   DiagramWidget.DeleteAction,
   DiagramWidget.SelectAllAction, DiagramWidget.SelectNoneAction,
   DiagramWidget.RotateAction, DiagramWidget.RotateBackAction,
   DiagramWidget.FlipAction,
   DiagramWidget.InsertPointAction, DiagramWidget.RemovePointAction,
   DiagramWidget.GroupAction, DiagramWidget.UngroupAction,
   DiagramWidget.BringForwardAction, DiagramWidget.SendBackwardAction,
   DiagramWidget.BringToFrontAction, DiagramWidget.SendToBackAction,
   DiagramWidget.ZoomInAction, DiagramWidget.ZoomOutAction,
   DiagramWidget.ZoomFitAction]

/-- DiagramWindow.createMenus (jade-test.py lines 320-335): the indexes
used on the mode action list, in source order. -/
def createMenusModeIndexes : List Nat :=
  [DiagramWindow.DefaultModeAction, DiagramWindow.ScrollModeAction,
   DiagramWindow.ZoomModeAction,
   DiagramWindow.PlaceArcAction, DiagramWindow.PlaceCurveAction,
   DiagramWindow.PlaceEllipseAction, DiagramWindow.PlaceLineAction,
   DiagramWindow.PlacePathAction, DiagramWindow.PlacePolygonAction,
   DiagramWindow.PlacePolylineAction, DiagramWindow.PlaceRectAction,
   DiagramWindow.PlaceTextAction, DiagramWindow.PlaceTextRectAction,
   DiagramWindow.PlaceTextEllipseAction, DiagramWindow.PlaceTextPolygonAction]

/-- DiagramWindow.setModeLabel (jade-test.py lines 226-234): choose the
status-bar mode label from the received mode value. -/
def setModeLabel (mode : Mode) : String :=
  if mode = Mode.ScrollMode then "Scroll Mode"
  else if mode = Mode.ZoomMode then "Zoom Mode"
  else if mode = Mode.PlaceMode then "Place Mode"
  else "Select Mode"

/-- Modelled from the spec: the two item flags of the absent native class
DrawingItem that DiagramWidget.mouseReleaseEvent tests, represented as
booleans, together with the selection state of the item under the mouse. -/
structure ItemState where
  isSelected : Bool
  canInsertPoints : Bool
  canRemovePoints : Bool
deriving DecidableEq

/-- The widget state read by DiagramWidget.mouseReleaseEvent: the current
mode, the item under the mouse if any, and the number of selected items. -/
structure WidgetState where
  mode : Mode
  mouseDownItem : Option ItemState
  selectedCount : Nat
deriving DecidableEq

/-- The mouse buttons of the event; the handler only distinguishes the
right button from the rest. -/
inductive MouseButton
| left
| right
| middle
deriving DecidableEq

/-- The observable effects DiagramWidget.mouseReleaseEvent can produce:
popping up one of the four context menus, clearing the selection, switching
to default mode, and delegating to DrawingWidget.mouseReleaseEvent. -/
inductive Effect
| popup (menu : String)
| clearSelection
| setDefaultMode
| baseMouseRelease
deriving DecidableEq

/-- DiagramWidget.mouseReleaseEvent (jade-test.py lines 21-41): the effects
of one call, in order. The final unconditional statement of the source is
the trailing delegation to the base class. -/
def mouseReleaseEvent (st : WidgetState) (button : MouseButton) : List Effect :=
  (if button = MouseButton.right then
    (if st.mode = Mode.DefaultMode then
      (match st.mouseDownItem with
       | some item =>
         if item.isSelected && decide (st.selectedCount = 1) then
           (if item.canInsertPoints || item.canRemovePoints then
             [Effect.popup "singlePolyItemContextMenu"]
           else
             [Effect.popup "singleItemContextMenu"])
         else if item.isSelected then
           [Effect.popup "multipleItemContextMenu"]
         else
           [Effect.popup "diagramContextMenu"]
       | none =>
         [Effect.clearSelection, Effect.popup "diagramContextMenu"])
    else [Effect.setDefaultMode])
  else []) ++
  [Effect.baseMouseRelease]

/-- Claim C1: setModeFromAction maps each of the 14 handled labels to its
scroll, zoom or place command in source order, and any other text, the
label Select Mode included, yields the default-mode command. -/
theorem setModeFromAction_dispatch :
    modeActionLabels.map setModeFromAction =
      [DiagramCmd.setScrollMode, DiagramCmd.setZoomMode,
       DiagramCmd.setPlaceMode ItemKind.arcItem,
       DiagramCmd.setPlaceMode ItemKind.curveItem,
       DiagramCmd.setPlaceMode ItemKind.ellipseItem,
       DiagramCmd.setPlaceMode ItemKind.lineItem,
       DiagramCmd.setPlaceMode ItemKind.polygonItem,
       DiagramCmd.setPlaceMode ItemKind.polylineItem,
       DiagramCmd.setPlaceMode ItemKind.rectItem,
       DiagramCmd.setPlaceMode ItemKind.textItem,
       DiagramCmd.setPlaceMode placePathItem,
       DiagramCmd.setPlaceMode ItemKind.textRectItem,
       DiagramCmd.setPlaceMode ItemKind.textEllipseItem,
       DiagramCmd.setPlaceMode ItemKind.textPolygonItem] ∧
    ∀ s : String, s ∉ modeActionLabels →
      setModeFromAction s = DiagramCmd.setDefaultMode := by
  refine ⟨rfl, ?_⟩
  intro s hs
  simp only [modeActionLabels, List.mem_cons, List.not_mem_nil, or_false,
    not_or] at hs
  obtain ⟨h1, h2, h3, h4, h5, h6, h7, h8, h9, h10, h11, h12, h13, h14⟩ := hs
  simp [setModeFromAction, h1, h2, h3, h4, h5, h6, h7, h8, h9, h10, h11, h12,
    h13, h14]

/-- Witness for C1: the text Select Mode is not among the handled labels
and selects the default mode. -/
theorem setModeFromAction_dispatch_witness :
    "Select Mode" ∉ modeActionLabels ∧
    setModeFromAction "Select Mode" = DiagramCmd.setDefaultMode :=
  ⟨by decide, setModeFromAction_dispatch.2 "Select Mode" (by decide)⟩

/-- Claim C2: the widget action list holds exactly NumberOfActions = 22
actions, the mode action group holds exactly NumberOfModeActions = 15
actions, the window action list holds NumberOfActions = 2 actions, and
every index used in createContextMenus and createMenus is strictly below
the length of the list it indexes. -/
theorem actionIndexes_in_bounds :
    diagramWidgetActions.length = DiagramWidget.NumberOfActions ∧
    DiagramWidget.NumberOfActions = 22 ∧
    modeActions.length = DiagramWindow.NumberOfModeActions ∧
    DiagramWindow.NumberOfModeActions = 15 ∧
    windowActions.length = DiagramWindow.NumberOfActions ∧
    createContextMenusIndexes.all
      (fun i => decide (i < diagramWidgetActions.length)) = true ∧
    createMenusWindowIndexes.all
      (fun i => decide (i < windowActions.length)) = true ∧
    createMenusDiagramIndexes.all
      (fun i => decide (i < diagramWidgetActions.length)) = true ∧
    createMenusModeIndexes.all
      (fun i => decide (i < modeActions.length)) = true :=
  ⟨rfl, rfl, rfl, rfl, rfl, rfl, rfl, rfl, rfl⟩

/-- Counterexample to C3 as stated: the binding-generation script does
check a path for existence before using it; its trace contains the
existence check on the codegen output directory, so the no-existence-check
predicate is false on it. -/
theorem libjade_existence_check_counterexample :
    checksNoExistence (libjadeRun '/' true) = false ∧
    FsStep.existsCheck output_dir ∈ libjadeRun '/' true :=
  ⟨rfl, by decide⟩

/-- Claim C3 amended: the build script checks no path for existence, and
the binding-generation script performs exactly one existence check, on the
codegen output directory it is about to delete; no other path (tool binary,
include directory, input file) is checked. -/
theorem scripts_existence_checks (exitCode : String → Int) (clean : Bool)
    (sep : Char) (codegenExists : Bool) :
    checksNoExistence (buildScriptRun exitCode clean) = true ∧
    (libjadeRun sep codegenExists).filter isExistsCheck =
      [FsStep.existsCheck output_dir] := by
  cases clean <;> cases codegenExists <;> exact ⟨rfl, rfl⟩

/-- Claim C4: whatever the exit codes of the external tools, the build
script always calls qmake then nmake release; with clean set it then calls
nmake clean and removes debug, release, Makefile.Debug, Makefile.Release
and Makefile in that order, and with clean unset it performs none of the
cleanup steps. -/
theorem buildScript_trace (exitCode : String → Int) :
    buildScriptRun exitCode true =
      [FsStep.call "qmake", FsStep.call "nmake release",
       FsStep.call "nmake clean",
       FsStep.rmdir "debug", FsStep.rmdir "release",
       FsStep.removeFile "Makefile.Debug", FsStep.removeFile "Makefile.Release",
       FsStep.removeFile "Makefile"] ∧
    buildScriptRun exitCode false =
      [FsStep.call "qmake", FsStep.call "nmake release"] :=
  ⟨rfl, rfl⟩

/-- Claim C5: the binding-generation script performs exactly one external
invocation, the os.system call on the SIP command line, and with the posix
separator that command line is exactly the space-join of the SIP binary,
-c codegen, -b codegen/jade.sbf, -I, the PyQt sip include directory,
-t WS_WIN and Drawing.sip. -/
theorem libjade_single_external_invocation (sep : Char) (codegenExists : Bool) :
    (libjadeRun sep codegenExists).filter isExternalInvocation =
      [FsStep.systemCmd (sipCommand sep)] ∧
    sipCommand '/' =
      "C:\\Development\\Python34\\sip.exe -c codegen -b codegen/jade.sbf -I C:\\Development\\Python34\\Lib\\site-packages\\PyQt5\\sip\\PyQt5 -t WS_WIN Drawing.sip" := by
  cases codegenExists <;> exact ⟨rfl, by decide⟩

/-- Claim C6: the trace of the build script does not depend on the exit
codes of the external commands; every step runs unconditionally, subject
only to the clean flag. -/
theorem buildScript_ignores_exit_status (e1 e2 : String → Int) (clean : Bool) :
    buildScriptRun e1 clean = buildScriptRun e2 clean :=
  rfl

/-- Claim C7: the Undo action carries shortcut Ctrl+Z, Zoom In carries the
period, Zoom Out the comma and Zoom Fit the slash, and addAction installs
a shortcut exactly when its shortcut argument is nonempty. -/
theorem addActions_shortcuts :
    diagramWidgetActions.get? DiagramWidget.UndoAction =
      some { text := "Undo", icon := none, shortcut := some "Ctrl+Z",
             connectedSlot := some "undo", checkable := false } ∧
    diagramWidgetActions.get? DiagramWidget.ZoomInAction =
      some { text := "Zoom In", icon := none, shortcut := some ".",
             connectedSlot := some "zoomIn", checkable := false } ∧
    diagramWidgetActions.get? DiagramWidget.ZoomOutAction =
      some { text := "Zoom Out", icon := none, shortcut := some ",",
             connectedSlot := some "zoomOut", checkable := false } ∧
    diagramWidgetActions.get? DiagramWidget.ZoomFitAction =
      some { text := "Zoom Fit", icon := none, shortcut := some "/",
             connectedSlot := some "zoomFit", checkable := false } ∧
    ∀ s : ActionSpec,
      (addAction s).shortcut =
        if s.shortcut = "" then none else some s.shortcut :=
  ⟨rfl, rfl, rfl, rfl, fun _ => rfl⟩

/-- Claim C8: setModeLabel yields Scroll Mode, Zoom Mode and Place Mode on
the three matching mode values and Select Mode on every other value. -/
theorem setModeLabel_cases :
    setModeLabel Mode.ScrollMode = "Scroll Mode" ∧
    setModeLabel Mode.ZoomMode = "Zoom Mode" ∧
    setModeLabel Mode.PlaceMode = "Place Mode" ∧
    ∀ m : Mode, m ≠ Mode.ScrollMode → m ≠ Mode.ZoomMode →
      m ≠ Mode.PlaceMode → setModeLabel m = "Select Mode" := by
  refine ⟨rfl, rfl, rfl, ?_⟩
  intro m h1 h2 h3
  cases m
  · rfl
  · exact absurd rfl h1
  · exact absurd rfl h2
  · exact absurd rfl h3

/-- Witness for C8: the default mode differs from the three matched values
and yields the Select Mode label. -/
theorem setModeLabel_cases_witness :
    Mode.DefaultMode ≠ Mode.ScrollMode ∧
    setModeLabel Mode.DefaultMode = "Select Mode" :=
  ⟨by decide,
   setModeLabel_cases.2.2.2 Mode.DefaultMode (by decide) (by decide)
     (by decide)⟩

/-- Claim C9: no action built by addModeAction carries a shortcut or a
triggered connection of its own; the first mode action, Select Mode,
received the string Escape as an icon path, not as a shortcut, because the
createActions calls pass their third argument into the iconPath parameter;
addModeAction with the default empty shortcut never sets one; and the mode
action group is the one wired to setModeFromAction. -/
theorem modeActions_never_shortcut :
    (modeActions.all fun a =>
      decide (a.shortcut = none) && decide (a.connectedSlot = none)) = true ∧
    modeActions.get? DiagramWindow.DefaultModeAction =
      some { text := "Select Mode", icon := some "Escape", shortcut := none,
             connectedSlot := none, checkable := true } ∧
    (∀ t s i : String, addModeAction t s i "" =
      { text := t, icon := if i = "" then none else some i, shortcut := none,
        connectedSlot := none, checkable := true }) ∧
    modeActionGroupTriggeredSlot = "setModeFromAction" :=
  ⟨rfl, rfl, fun _ _ _ => rfl, rfl⟩

/-- Claim C10: for every widget state and mouse button, mouseReleaseEvent
delegates to the base class handler exactly once, and that delegation is
the last effect of the call. -/
theorem mouseReleaseEvent_always_delegates (st : WidgetState)
    (button : MouseButton) :
    (mouseReleaseEvent st button).countP
      (fun e => decide (e = Effect.baseMouseRelease)) = 1 ∧
    (mouseReleaseEvent st button).getLast? = some Effect.baseMouseRelease := by
  obtain ⟨mode, item, cnt⟩ := st
  rcases item with _ | ⟨sel, ci, cr⟩ <;> cases button <;> cases mode <;>
    (try cases sel) <;> (try cases ci) <;> (try cases cr) <;>
    rcases cnt with _ | _ | n <;>
    exact ⟨rfl, rfl⟩

end Jade
